import Mathlib

/-!
# Verification of `simsity/service.py` (the `Service` class)

Shallow embedding of the lookup service in `src/simsity/service.py`.

Modelling conventions:
* Python exceptions are values of `PyErr` (exception class plus message).
  A method that can raise returns `Except PyErr _`; a method that both
  mutates `self` and can raise returns the post-call state paired with
  `Option PyErr` (`none` = normal return, `some e` = exception `e` raised,
  leaving the state as it was at the raise point).
* A dataframe row / stored record is an association list from column name
  to a numeric value (`Rat`, standing in for Python scalars incl. floats).
* The encoder and indexer are the opaque injected collaborators: records
  of function fields.  `joblib` serialization of these foreign objects is
  modelled as storing the object itself in the directory entry.
* The filesystem is an association list from path to directory contents;
  a directory holds the four artifacts the service reads/writes, each
  `Option` (absent file = `none`).
* `json.dumps` turns the integer storage keys into decimal strings and
  `int(k)` parses them back; both are modelled by an explicit decimal
  codec (`natKey` / `parseKey`) on non-negative keys, which is what
  `enumerate` produces.
-/

deriving instance DecidableEq for Except

namespace Simsity

/-- A Python exception value: the exception class together with its
message.  `notFitted` is sklearn's `NotFittedError` (the only one the
service catches, so its message is irrelevant). -/
inductive PyErr where
  | notFitted : PyErr
  | runtimeError (msg : String) : PyErr
  | valueError (msg : String) : PyErr
  | keyError (msg : String) : PyErr
  | indexError (msg : String) : PyErr
  | fileNotFoundError (msg : String) : PyErr
deriving DecidableEq

/-- A dataframe row / stored record: column name to scalar value. -/
abbrev Rec : Type := List (String × Rat)

/-- The injected encoder (`sklearn`-compatible).  `fitted` abstracts
`check_is_fitted` over the encoder's steps (what `_check_is_trained`
computes); `transform` and `fitTransform` may raise, `transform` raising
`NotFittedError` when the encoder is not yet fit.  `β` is the opaque type
of the vector batch an encoder produces. -/
structure Encoder (β : Type) where
  fitted : Bool
  transform : List Rec → Except PyErr β
  fitTransform : List Rec → Except PyErr β

/-- The injected nearest-neighbour indexer.  `data` is the batch most
recently handed to `index` (`none` before any indexing); `queryFn` is the
opaque search routine, a function of the indexed batch, the query vector
(`none` models Python `None` being passed) and `n_neighbors`. -/
structure Indexer (β : Type) where
  data : Option β
  queryFn : Option β → Option β → Nat → List Nat × List Rat

/-- `indexer.index(data)`: hand a vector batch to the indexer. -/
def Indexer.index {β : Type} (ix : Indexer β) (d : β) : Indexer β :=
  { ix with data := some d }

/-- `indexer.query(data, n_neighbors=k)`. -/
def Indexer.query {β : Type} (ix : Indexer β) (d : Option β) (k : Nat) :
    List Nat × List Rat :=
  ix.queryFn ix.data d k

/-- The `Service` object's state: the two collaborators, the storage
dict, and the `_trained` / `_indexed` flags. -/
structure Service (β : Type) where
  encoder : Encoder β
  indexer : Indexer β
  storage : List (Nat × Rec)
  trained : Bool
  indexed : Bool

/-- `Service.__init__(encoder, indexer, storage=None)`:
`self.storage = storage if storage else {}` (a falsy argument — `None`
or an empty dict — yields `{}`), `self._trained = self._check_is_trained()`
(the encoder's fitted state), `self._indexed = False`. -/
def Service.init {β : Type} (encoder : Encoder β) (indexer : Indexer β)
    (storage : Option (List (Nat × Rec))) : Service β :=
  { encoder := encoder
    indexer := indexer
    storage := match storage with
      | none => []
      | some st => if st.isEmpty then [] else st
    trained := encoder.fitted
    indexed := false }

/-- Column selection `df[features]` applied to one row: pick the named
columns in the given order; a missing column raises `KeyError`. -/
def projectRec (features : List String) (r : Rec) : Except PyErr Rec :=
  match features with
  | [] => .ok []
  | f :: fs =>
    match r.find? (fun p => p.1 == f) with
    | none => .error (.keyError f)
    | some p =>
      match projectRec fs r with
      | .error e => .error e
      | .ok rest => .ok ((f, p.2) :: rest)

/-- Map a fallible function over a list, propagating the first raised
exception (how a pandas column selection fails on the whole frame). -/
def mapExcept {α γ : Type} (f : α → Except PyErr γ) : List α → Except PyErr (List γ)
  | [] => .ok []
  | a :: as =>
    match f a with
    | .error e => .error e
    | .ok b =>
      match mapExcept f as with
      | .error e => .error e
      | .ok bs => .ok (b :: bs)

/-- `subset = df; if features: subset = df[features]` — the guard is
Python truthiness, so a falsy `features` (`None` or the empty list)
leaves the frame unprojected. -/
def subsetOf (features : Option (List String)) (df : List Rec) :
    Except PyErr (List Rec) :=
  match features with
  | none => .ok df
  | some fs => if fs.isEmpty then .ok df else mapExcept (projectRec fs) df

/-- `Service.train_from_dataf(df, features=None)`.  Returns the post-call
state and the exception raised, if any.  Mirrors the source order:
compute the subset, replace `self.storage` with `enumerate(subset)`, try
`encoder.transform`, fall back to `encoder.fit_transform` on
`NotFittedError`, hand the vectors to `indexer.index`, then set
`_trained = _indexed = True`. -/
def Service.train_from_dataf {β : Type} (s : Service β) (df : List Rec)
    (features : Option (List String)) : Service β × Option PyErr :=
  match subsetOf features df with
  | .error e => (s, some e)
  | .ok subset =>
    match s.encoder.transform subset with
    | .ok data =>
      ({ s with
          storage := subset.enum, indexer := s.indexer.index data,
          trained := true, indexed := true }, none)
    | .error .notFitted =>
      match s.encoder.fitTransform subset with
      | .ok data =>
        ({ s with
            storage := subset.enum, indexer := s.indexer.index data,
            trained := true, indexed := true }, none)
      | .error e => ({ s with storage := subset.enum }, some e)
    | .error e => ({ s with storage := subset.enum }, some e)

/-! ## Decimal codec: `str(i)` for a non-negative int, and `int(k)` back -/

/-- The decimal digits of `n`, least significant first, with explicit
fuel so the recursion is structural (any fuel above `n` suffices since
`n / 10 < n` for `n ≥ 10`). -/
def digitsRevFuel : Nat → Nat → List Char
  | _, 0 => []
  | n, fuel + 1 =>
    if n < 10 then [Nat.digitChar n]
    else Nat.digitChar (n % 10) :: digitsRevFuel (n / 10) fuel

/-- The decimal digits of `n`, least significant first (always nonempty,
matching `str(0) = "0"`). -/
def natDigitsRev (n : Nat) : List Char :=
  digitsRevFuel n (n + 1)

/-- `str(n)` for a non-negative Python int: its decimal representation. -/
def natKey (n : Nat) : String :=
  String.mk (natDigitsRev n).reverse

/-- Numeric value of a decimal digit character, `none` otherwise. -/
def digitVal (c : Char) : Option Nat :=
  if 48 ≤ c.toNat ∧ c.toNat ≤ 57 then some (c.toNat - 48) else none

/-- Horner-style accumulation over a decimal digit string. -/
def parseDecimalAux : List Char → Nat → Option Nat
  | [], acc => some acc
  | c :: cs, acc =>
    match digitVal c with
    | none => none
    | some d => parseDecimalAux cs (10 * acc + d)

/-- `int(k)` on the non-negative decimal strings the service writes:
`none` models the `ValueError` raised on a non-numeric string. -/
def parseDecimal (cs : List Char) : Option Nat :=
  if cs.isEmpty then none else parseDecimalAux cs 0

/-- `int(k)` on a storage key read back from `storage.json`. -/
def parseKey (s : String) : Except PyErr Nat :=
  match parseDecimal s.data with
  | some n => .ok n
  | none => .error (.valueError ("invalid literal for int() with base 10: " ++ s))

/-! ## `Service.query` -/

/-- A query result: the `"list"` shape (item/dist pairs) or the
`"dataframe"` shape (rows of item columns merged with a `dist` column). -/
inductive QueryOut where
  | list (rs : List (Rec × Rat)) : QueryOut
  | dataframe (rows : List Rec) : QueryOut
deriving DecidableEq

/-- Python dict lookup `self.storage[k]` (`none` = `KeyError`). -/
def lookupStorage (storage : List (Nat × Rec)) (k : Nat) : Option Rec :=
  (storage.find? (fun p => p.1 == k)).map (fun p => p.2)

/-- The `res` list comprehension in `query`: for each `i` in
`range(len(idx))`, look `idx[i]` up in storage (`KeyError` if absent) and
pair it with `float(dist[i])` (`IndexError` if `dist` is shorter). -/
def buildResults (storage : List (Nat × Rec)) :
    List Nat → List Rat → Except PyErr (List (Rec × Rat))
  | [], _ => .ok []
  | _ :: _, [] => .error (.indexError "list index out of range")
  | i :: is, d :: ds =>
    match lookupStorage storage i with
    | none => .error (.keyError (natKey i))
    | some item =>
      match buildResults storage is ds with
      | .error e => .error e
      | .ok rest => .ok ((item, d) :: rest)

/-- Python dict merge `{**item, "dist": d}`: an existing `"dist"` column
is overwritten in place, otherwise `dist` is appended as a new column. -/
def mergeDist (item : Rec) (d : Rat) : Rec :=
  if (item.find? (fun p => p.1 == "dist")).isSome then
    item.map (fun p => if p.1 == "dist" then (p.1, d) else p)
  else item ++ [("dist", d)]

/-- `Service.query(n_neighbors=10, out="list", data=None, **kwargs)`.
Mirrors the source order: `_trained` check, `n_neighbors` bound check,
vector resolution (NOTE: the source's `except NotFittedError` branch on
line 113 builds `RuntimeError(...)` but never raises it, so execution
falls through with `data` still `None`), `_indexed` check, indexer
lookup, result assembly, output shaping (an unrecognised `out` falls off
the end of the function, returning `None`, modelled as `.ok none`). -/
def Service.query {β : Type} (s : Service β) (n_neighbors : Nat) (out : String)
    (data : Option β) (kwargs : Rec) : Except PyErr (Option QueryOut) :=
  if s.trained = false then
    .error (.runtimeError "Cannot query, Service is not trained.")
  else if n_neighbors > s.storage.length then
    .error (.valueError "n_neighbors cannot be greater than the number of items in the storage.")
  else
    let dataRes : Except PyErr (Option β) :=
      match data with
      | some d => .ok (some d)
      | none =>
        match s.encoder.transform [kwargs] with
        | .ok v => .ok (some v)
        | .error .notFitted => .ok none
        | .error e => .error e
    match dataRes with
    | .error e => .error e
    | .ok dv =>
      if s.indexed = false then
        .error (.runtimeError "Cannot query, Service is not indexed.")
      else
        match buildResults s.storage (s.indexer.query dv n_neighbors).1
            (s.indexer.query dv n_neighbors).2 with
        | .error e => .error e
        | .ok res =>
          if out = "list" then .ok (some (.list res))
          else if out = "dataframe" then
            .ok (some (.dataframe (res.map (fun r => mergeDist r.1 r.2))))
          else .ok none

/-! ## Filesystem model, `Service.save` and `Service.load` -/

/-- A saved-service directory: the four artifacts the service writes,
each possibly absent.  The opaque joblib blobs hold the objects
themselves. -/
structure Dir (β : Type) where
  storageJson : Option (List (String × Rec))
  metadataJson : Option String
  encoderFile : Option (Encoder β)
  indexerFile : Option (Indexer β)

/-- A directory freshly created by `mkdir`. -/
def emptyDir {β : Type} : Dir β :=
  { storageJson := none, metadataJson := none, encoderFile := none, indexerFile := none }

/-- The filesystem: a partial map from path to directory contents. -/
def FS (β : Type) : Type := String → Option (Dir β)

/-- The filesystem with no saved-service directories. -/
def emptyFS {β : Type} : FS β := fun _ => none

/-- Read the directory at `path`, if it exists. -/
def lookupDir {β : Type} (fs : FS β) (path : String) : Option (Dir β) :=
  fs path

/-- Replace (or create) the directory entry at `path`. -/
def setDir {β : Type} (fs : FS β) (path : String) (d : Dir β) : FS β :=
  fun q => if q == path then some d else fs q

/-- `pathlib.Path(path).mkdir(parents=True, exist_ok=True)`: create the
directory if it is missing, leave it untouched if it exists. -/
def mkdir {β : Type} (fs : FS β) (path : String) : FS β :=
  match lookupDir fs path with
  | some _ => fs
  | none => setDir fs path emptyDir

/-- The process-wide format tag `simsity.__version__` compared verbatim
on load (its concrete value never matters, only equality with itself). -/
def serviceVersion : String := "0.1.0"

/-- `Service.save(path)`: `_trained` check first, then `mkdir`, then
write `storage.json` (keys stringified by `json.dumps`), `metadata.json`
(the version tag) and the two joblib blobs.  Returns the post-call
filesystem and the exception raised, if any. -/
def Service.save {β : Type} (s : Service β) (fs : FS β) (path : String) :
    FS β × Option PyErr :=
  if s.trained = false then
    (fs, some (.runtimeError "Cannot save, Service is not trained."))
  else
    let d : Dir β :=
      { storageJson := some (s.storage.map (fun p => (natKey p.1, p.2)))
        metadataJson := some serviceVersion
        encoderFile := some s.encoder
        indexerFile := some s.indexer }
    (setDir (mkdir fs path) path d, none)

/-- `{int(k): v for k, v in json.loads(...).items()}` over the storage
object; a key `int()` cannot parse raises `ValueError`. -/
def parseStorage : List (String × Rec) → Except PyErr (List (Nat × Rec))
  | [] => .ok []
  | (k, v) :: rest =>
    match parseKey k with
    | .error e => .error e
    | .ok n =>
      match parseStorage rest with
      | .error e => .error e
      | .ok r => .ok ((n, v) :: r)

/-- The artifacts `load` successfully reads, in order, for tracing which
files were touched before a failure. -/
inductive Artifact where
  | metadataFile : Artifact
  | storageFile : Artifact
  | encoderFile : Artifact
  | indexerFile : Artifact
deriving DecidableEq

/-- `Service.load(path)` (a classmethod): existence check (raising
`FileNotFoundError(f"{path} does not exist")`), read `metadata.json`,
version check (raising `RuntimeError` on mismatch), read and parse
`storage.json`, deserialize the two blobs, then construct the instance
and force `_trained = True`.  Missing artifact files raise the
`FileNotFoundError` of the failed read.  Also returns the list of
artifacts successfully read. -/
def Service.load {β : Type} (fs : FS β) (path : String) :
    Except PyErr (Service β) × List Artifact :=
  match lookupDir fs path with
  | none => (.error (.fileNotFoundError (path ++ " does not exist")), [])
  | some d =>
    match d.metadataJson with
    | none => (.error (.fileNotFoundError (path ++ "/metadata.json")), [])
    | some ver =>
      if ver ≠ serviceVersion then
        (.error (.runtimeError ("Version mismatch. Expected " ++ serviceVersion ++ ", got " ++ ver)),
          [.metadataFile])
      else
        match d.storageJson with
        | none => (.error (.fileNotFoundError (path ++ "/storage.json")), [.metadataFile])
        | some sj =>
          match parseStorage sj with
          | .error e => (.error e, [.metadataFile, .storageFile])
          | .ok st =>
            match d.encoderFile with
            | none =>
              (.error (.fileNotFoundError (path ++ "/encoder.joblib")), [.metadataFile, .storageFile])
            | some enc =>
              match d.indexerFile with
              | none =>
                (.error (.fileNotFoundError (path ++ "/indexer.joblib")),
                  [.metadataFile, .storageFile, .encoderFile])
              | some ix =>
                (.ok { Service.init enc ix (some st) with trained := true },
                  [.metadataFile, .storageFile, .encoderFile, .indexerFile])

/-! ## Helper lemmas -/

theorem digitVal_digitChar (d : Nat) (h : d < 10) :
    digitVal (Nat.digitChar d) = some d := by
  interval_cases d <;> decide

theorem parseDecimalAux_append (xs ys : List Char) (acc : Nat) :
    parseDecimalAux (xs ++ ys) acc =
      match parseDecimalAux xs acc with
      | none => none
      | some a => parseDecimalAux ys a := by
  induction xs generalizing acc with
  | nil => rfl
  | cons c cs ih =>
    simp only [List.cons_append, parseDecimalAux]
    cases digitVal c with
    | none => rfl
    | some d => exact ih _

theorem digitsRevFuel_ne_nil (n fuel : Nat) : digitsRevFuel n (fuel + 1) ≠ [] := by
  simp only [digitsRevFuel]
  split <;> simp

theorem parseAux_digitsRevFuel :
    ∀ (fuel n acc : Nat), n < fuel →
      parseDecimalAux ((digitsRevFuel n fuel).reverse) acc =
        some (acc * 10 ^ (digitsRevFuel n fuel).length + n) := by
  intro fuel
  induction fuel with
  | zero => intro n acc h; omega
  | succ f ih =>
    intro n acc h
    by_cases h10 : n < 10
    · simp only [digitsRevFuel, if_pos h10, List.reverse_singleton, parseDecimalAux,
        digitVal_digitChar n h10, List.length_singleton, pow_one]
      congr 1
      ring
    · have hdiv : n / 10 < f := by omega
      simp only [digitsRevFuel, if_neg h10, List.reverse_cons, parseDecimalAux_append,
        ih (n / 10) acc hdiv, parseDecimalAux, digitVal_digitChar (n % 10) (by omega),
        List.length_cons, pow_succ]
      congr 1
      have hmod : 10 * (n / 10) + n % 10 = n := Nat.div_add_mod n 10
      calc 10 * (acc * 10 ^ (digitsRevFuel (n / 10) f).length + n / 10) + n % 10
          = acc * (10 ^ (digitsRevFuel (n / 10) f).length * 10) + (10 * (n / 10) + n % 10) := by
            ring
        _ = acc * (10 ^ (digitsRevFuel (n / 10) f).length * 10) + n := by rw [hmod]

theorem parseKey_natKey (n : Nat) : parseKey (natKey n) = .ok n := by
  have hne : (digitsRevFuel n (n + 1)).reverse ≠ [] := by
    intro hrev
    exact digitsRevFuel_ne_nil n n (List.reverse_eq_nil_iff.mp hrev)
  have hmain := parseAux_digitsRevFuel (n + 1) n 0 (Nat.lt_succ_self n)
  simp only [parseKey, natKey, natDigitsRev, parseDecimal, List.isEmpty_eq_true]
  rw [if_neg hne]
  simp only [hmain, Nat.zero_mul, Nat.zero_add]

theorem mapExcept_length {α γ : Type} (f : α → Except PyErr γ) :
    ∀ (l : List α) (l' : List γ), mapExcept f l = .ok l' → l'.length = l.length := by
  intro l
  induction l with
  | nil =>
    intro l' h
    simp only [mapExcept] at h
    cases h
    rfl
  | cons a as ih =>
    intro l' h
    simp only [mapExcept] at h
    cases hfa : f a <;> rw [hfa] at h
    · cases h
    · cases hrest : mapExcept f as <;> rw [hrest] at h
      · cases h
      · cases h
        simp only [List.length_cons, ih _ hrest]

theorem subsetOf_length (features : Option (List String)) (df subset : List Rec)
    (h : subsetOf features df = .ok subset) : subset.length = df.length := by
  cases features with
  | none =>
    simp only [subsetOf] at h
    cases h
    rfl
  | some fs =>
    simp only [subsetOf] at h
    split at h
    · cases h
      rfl
    · exact mapExcept_length _ _ _ h

theorem lookupStorage_enumFrom :
    ∀ (l : List Rec) (n i : Nat) (h : i < l.length),
      lookupStorage (l.enumFrom n) (n + i) = some (l.get ⟨i, h⟩) := by
  intro l
  induction l with
  | nil => intro n i h; simp at h
  | cons x xs ih =>
    intro n i h
    cases i with
    | zero =>
      simp [List.enumFrom, lookupStorage, List.find?]
    | succ j =>
      have hne : (n == n + (j + 1)) = false := by
        simp only [beq_eq_false_iff_ne]
        omega
      have hrec := ih (n + 1) j (by simpa using Nat.lt_of_succ_lt_succ h)
      simp only [List.enumFrom, lookupStorage, List.find?, hne] at hrec ⊢
      rw [show n + (j + 1) = n + 1 + j by omega]
      exact hrec

theorem lookupStorage_enum (l : List Rec) (i : Nat) (h : i < l.length) :
    lookupStorage l.enum i = some (l.get ⟨i, h⟩) := by
  have := lookupStorage_enumFrom l 0 i h
  simpa [List.enum] using this

theorem parseStorage_roundtrip :
    ∀ st : List (Nat × Rec), parseStorage (st.map (fun p => (natKey p.1, p.2))) = .ok st := by
  intro st
  induction st with
  | nil => rfl
  | cons p ps ih =>
    simp only [List.map_cons, parseStorage, parseKey_natKey, ih]

theorem parseStorage_error_shape :
    ∀ (l : List (String × Rec)) (e : PyErr), parseStorage l = .error e →
      ∃ m, e = .valueError m := by
  intro l
  induction l with
  | nil => intro e h; cases h
  | cons kv rest ih =>
    intro e h
    simp only [parseStorage] at h
    cases hk : parseKey kv.1 <;> rw [hk] at h
    · cases h
      simp only [parseKey] at hk
      cases hp : parseDecimal kv.1.data <;> rw [hp] at hk
      · cases hk
        exact ⟨_, rfl⟩
      · cases hk
    · cases hrest : parseStorage rest <;> rw [hrest] at h
      · cases h
        exact ih _ hrest
      · cases h

theorem buildResults_ok (storage : List (Nat × Rec)) :
    ∀ (idx : List Nat) (items : List Rec) (dist : List Rat),
      idx.map (lookupStorage storage) = items.map some →
      idx.length = dist.length →
      buildResults storage idx dist = .ok (items.zip dist) := by
  intro idx
  induction idx with
  | nil =>
    intro items dist hmap _
    cases items with
    | nil => cases dist <;> rfl
    | cons _ _ => simp at hmap
  | cons i is ih =>
    intro items dist hmap hlen
    cases items with
    | nil => simp at hmap
    | cons it its =>
      cases dist with
      | nil => simp at hlen
      | cons d ds =>
        simp only [List.map_cons, List.cons.injEq] at hmap
        simp only [buildResults, hmap.1, ih its ds hmap.2 (by simpa using hlen),
          List.zip_cons_cons]

theorem strAppend_data (p q : String) : (p ++ q).data = p.data ++ q.data := by
  cases p
  cases q
  rfl

theorem strAppend_ne_of_ne (p a b : String) (h : a ≠ b) : p ++ a ≠ p ++ b := by
  intro heq
  apply h
  have hdata : p.data ++ a.data = p.data ++ b.data := by
    rw [← strAppend_data, ← strAppend_data, heq]
  have hab : a.data = b.data := List.append_cancel_left hdata
  cases a
  cases b
  exact congrArg String.mk hab

/-- Did the query raise?  (Distinguishes a raised exception from Python's
implicit `None` return.) -/
def isErrorResult : Except PyErr (Option QueryOut) → Bool
  | .error _ => true
  | .ok _ => false

/-- Did the query raise the "invalid argument" (`ValueError`) signal? -/
def isInvalidArgError : Except PyErr (Option QueryOut) → Bool
  | .error (.valueError _) => true
  | _ => false

/-! ## Concrete fixtures (an unfitted encoder, an always-broken encoder,
and a deterministic indexer) used to instantiate the theorems -/

/-- An encoder that is not yet fit: `transform` raises `NotFittedError`,
`fit_transform` succeeds (returning the batch size as its vector blob). -/
def encNF : Encoder Nat :=
  { fitted := false
    transform := fun _ => .error .notFitted
    fitTransform := fun rs => .ok rs.length }

/-- A deterministic indexer whose answer records whether it was handed
`None` as the query vector (distance 5) or a real vector (distance 0). -/
def ixFix : Indexer Nat :=
  { data := none
    queryFn := fun _ dv _ => if dv.isNone then ([0], [(5 : Rat)]) else ([0], [(0 : Rat)]) }

/-- A freshly constructed, untrained service. -/
def svc0 : Service Nat := Service.init encNF ixFix none

/-- A two-row training frame. -/
def df2 : List Rec := [[("text", (0 : Rat))], [("text", (1 : Rat))]]

/-- The service after a successful `train_from_dataf(df2)`. -/
def svcTrained : Service Nat := (svc0.train_from_dataf df2 none).1

/-- The filesystem after `svcTrained.save("model")`. -/
def fsSaved : FS Nat := (svcTrained.save emptyFS "model").1

/-- An encoder that reports `NotFittedError` from both `transform` and
`fit_transform` (state corruption after training). -/
def encAlwaysNF : Encoder Nat :=
  { fitted := true
    transform := fun _ => .error .notFitted
    fitTransform := fun _ => .error .notFitted }

/-- A trained-and-indexed service whose encoder raises `NotFittedError`
on every transform. -/
def svcNF : Service Nat :=
  { encoder := encAlwaysNF
    indexer := ixFix
    storage := [(0, [("text", (7 : Rat))])]
    trained := true
    indexed := true }

/-- One-row frame on which `encBoom` succeeds. -/
def dfA : List Rec := [[("text", (0 : Rat))]]

/-- One-row frame on which `encBoom` fails. -/
def dfB : List Rec := [[("text", (9 : Rat))]]

/-- An encoder that fits fine on `dfA` but raises on any other input. -/
def encBoom : Encoder Nat :=
  { fitted := false
    transform := fun _ => .error .notFitted
    fitTransform := fun rs => if rs == dfA then .ok 1 else .error (.runtimeError "bad input") }

/-- A service successfully trained (hence indexed) on `dfA` with
`encBoom`. -/
def svcRetrained : Service Nat :=
  ((Service.init encBoom ixFix none).train_from_dataf dfA none).1

/-- An encoder whose `fit_transform` always raises. -/
def encFail : Encoder Nat :=
  { fitted := false
    transform := fun _ => .error .notFitted
    fitTransform := fun _ => .error (.runtimeError "boom") }

/-- A fresh, never-indexed service built on the always-failing encoder. -/
def svcFresh : Service Nat := Service.init encFail ixFix none

/-- A saved directory carrying a foreign version tag. -/
def dirBadVer : Dir Nat :=
  { storageJson := none, metadataJson := some "9.9", encoderFile := none, indexerFile := none }

/-- A filesystem holding only `dirBadVer` at path `"p"`. -/
def fsBadVer : FS Nat := setDir emptyFS "p" dirBadVer

/-- Reading back the directory just written. -/
theorem lookupDir_setDir {β : Type} (fs : FS β) (path : String) (d : Dir β) :
    lookupDir (setDir fs path d) path = some d := by
  simp [lookupDir, setDir]

/-! ## Claim theorems -/

/-- C1: the claim states that a service reloaded by `load` from an
accepted directory is fully usable, with `trained = true` and
`indexed = true`.  The code contradicts this: `load` constructs the
instance through `__init__` (which sets `_indexed = False`) and only
forces `_trained = True`, so the reloaded service has `indexed = false`
and every query — even with a precomputed vector and valid `k` — raises
the "not indexed" error.  Evaluated here on a service trained on two
rows, saved, and reloaded. -/
theorem c1_load_yields_unqueryable_service :
    (Service.load fsSaved "model").1.map
        (fun sv => (sv.trained, sv.indexed, sv.query 2 "list" (some 3) [])) =
      .ok (true, false, .error (.runtimeError "Cannot query, Service is not indexed.")) := rfl

/-- C2: the claim states that when no precomputed vector is supplied and
the encoder's transform raises `NotFittedError`, `query` propagates a
runtime error.  The code contradicts this: line 113 constructs
`RuntimeError(...)` without `raise`, so the exception is swallowed and
execution continues into the indexer lookup with `data = None`.
Evaluated on a trained, indexed service whose encoder always raises
`NotFittedError`: the query returns a normal result whose distance 5
marks the indexer's `None`-input branch, instead of raising. -/
theorem c2_query_swallows_not_fitted :
    svcNF.query 1 "list" none [] =
      .ok (some (.list [([("text", (7 : Rat))], 5)])) := rfl

/-- C3 (counterexample): the claim asserts that for every service state —
trained or not — a `k` larger than the storage size fails with the
"invalid argument" (`ValueError`) signal.  On an untrained service the
`_trained` check fires first: the call raises the "not trained"
`RuntimeError`, not a `ValueError`. -/
theorem c3_counterexample :
    svc0.query 1 "list" none [] =
      .error (.runtimeError "Cannot query, Service is not trained.") ∧
    isInvalidArgError (svc0.query 1 "list" none []) = false :=
  ⟨rfl, rfl⟩

/-- C3 (amended): on every *trained* service (indexed or not), a
`n_neighbors` strictly greater than the number of stored items makes
`query` fail with the "invalid argument" `ValueError`; for untrained
services the "not trained" error takes precedence. -/
theorem c3_trained_too_many_neighbors (β : Type) (s : Service β) (k : Nat)
    (out : String) (data : Option β) (kwargs : Rec)
    (htr : s.trained = true) (hk : s.storage.length < k) :
    s.query k out data kwargs =
      .error (.valueError "n_neighbors cannot be greater than the number of items in the storage.") := by
  simp only [Service.query, htr]
  rw [if_neg (by simp), if_pos hk]

/-- C3 (witness): the amended theorem applied to the concrete trained
two-row service with `k = 3`. -/
theorem c3_witness :
    svcTrained.trained = true ∧ svcTrained.storage.length < 3 ∧
    svcTrained.query 3 "list" none [] =
      .error (.valueError "n_neighbors cannot be greater than the number of items in the storage.") :=
  ⟨rfl, by decide, c3_trained_too_many_neighbors Nat svcTrained 3 "list" none [] rfl (by decide)⟩

/-- C7: `save` on an untrained service raises the "not trained"
`RuntimeError` and performs no filesystem effect — the `_trained` check
precedes `mkdir`, so the returned filesystem is exactly the input one. -/
theorem c7_save_untrained_no_effect (β : Type) (s : Service β) (fs : FS β)
    (path : String) (h : s.trained = false) :
    s.save fs path = (fs, some (.runtimeError "Cannot save, Service is not trained.")) := by
  simp [Service.save, h]

/-- C7 (witness): the theorem applied to the fresh untrained service on
the empty filesystem. -/
theorem c7_witness :
    svc0.save emptyFS "model" =
      (emptyFS, some (.runtimeError "Cannot save, Service is not trained.")) :=
  c7_save_untrained_no_effect Nat svc0 emptyFS "model" rfl

/-- C4: after a successful `train_from_dataf(R)`, storage has exactly
`len(R)` entries, keyed densely `0..len(R)-1` in row order, entry `i`
being the (optionally projected) record `i`, and both `_trained` and
`_indexed` are true.  The storage built is `enumerate(subset)` where
`subset` is the projected frame. -/
theorem c4_train_populates_storage (β : Type) (s s' : Service β)
    (df subset : List Rec) (features : Option (List String))
    (hsub : subsetOf features df = .ok subset)
    (h : s.train_from_dataf df features = (s', none)) :
    s'.storage = subset.enum ∧
    s'.storage.length = df.length ∧
    s'.storage.map Prod.fst = List.range df.length ∧
    (∀ i (hi : i < subset.length), lookupStorage s'.storage i = some (subset.get ⟨i, hi⟩)) ∧
    s'.trained = true ∧ s'.indexed = true := by
  have hlen := subsetOf_length features df subset hsub
  have hgoal : s'.storage = subset.enum ∧ s'.trained = true ∧ s'.indexed = true := by
    simp only [Service.train_from_dataf, hsub] at h
    cases htr : s.encoder.transform subset <;> rw [htr] at h
    · rename_i e
      cases e <;> simp only [] at h
      · cases hft : s.encoder.fitTransform subset <;> rw [hft] at h
        · simp at h
        · replace h : ({ s with
              storage := subset.enum, indexer := s.indexer.index _,
              trained := true, indexed := true } : Service β) = s' := congrArg Prod.fst h
          subst h
          exact ⟨rfl, rfl, rfl⟩
      all_goals simp at h
    · replace h : ({ s with
          storage := subset.enum, indexer := s.indexer.index _,
          trained := true, indexed := true } : Service β) = s' := congrArg Prod.fst h
      subst h
      exact ⟨rfl, rfl, rfl⟩
  obtain ⟨hst, htr', hix'⟩ := hgoal
  refine ⟨hst, ?_, ?_, ?_, htr', hix'⟩
  · rw [hst, List.enum_length, hlen]
  · rw [hst, List.enum_eq_zip_range, List.map_fst_zip _ _ (by simp), hlen]
  · intro i hi
    rw [hst]
    exact lookupStorage_enum subset i hi

/-- C4 (witness): the theorem applied to the concrete two-row training
call that produced `svcTrained`. -/
theorem c4_witness :
    svcTrained.storage = df2.enum ∧
    svcTrained.storage.length = df2.length ∧
    svcTrained.storage.map Prod.fst = List.range df2.length ∧
    (∀ i (hi : i < df2.length), lookupStorage svcTrained.storage i = some (df2.get ⟨i, hi⟩)) ∧
    svcTrained.trained = true ∧ svcTrained.indexed = true :=
  c4_train_populates_storage Nat svc0 svcTrained df2 df2 none rfl rfl

/-- C10 (counterexample): the claim asserts that whenever the encoder
raises during `train_from_dataf`, the failed call leaves `indexed`
false.  But `_indexed` is only written on success, so a service that was
already indexed by an earlier successful training keeps `indexed = true`
after a failed retraining — with storage nevertheless already replaced
by the new records. -/
theorem c10_counterexample :
    (svcRetrained.train_from_dataf dfB none).2 = some (.runtimeError "bad input") ∧
    (svcRetrained.train_from_dataf dfB none).1.storage = dfB.enum ∧
    (svcRetrained.train_from_dataf dfB none).1.indexed = true :=
  ⟨rfl, rfl, rfl⟩

/-- C10 (amended): when the encoder raises during `train_from_dataf`
(after a successful projection), the failed call leaves storage already
replaced with the new records, the indexer untouched (it was never
handed the new vectors), and the `indexed` and `trained` flags at their
prior values — so `indexed` is false exactly when the service was not
indexed before the call. -/
theorem c10_failed_train_state (β : Type) (s s' : Service β)
    (df subset : List Rec) (features : Option (List String)) (e : PyErr)
    (hsub : subsetOf features df = .ok subset)
    (h : s.train_from_dataf df features = (s', some e)) :
    s'.storage = subset.enum ∧ s'.indexer = s.indexer ∧
    s'.indexed = s.indexed ∧ s'.trained = s.trained := by
  simp only [Service.train_from_dataf, hsub] at h
  cases htr : s.encoder.transform subset <;> rw [htr] at h
  · rename_i e2
    cases e2 <;> simp only [] at h
    case notFitted =>
      cases hft : s.encoder.fitTransform subset <;> rw [hft] at h
      · replace h : ({ s with storage := subset.enum } : Service β) = s' :=
          congrArg Prod.fst h
        subst h
        exact ⟨rfl, rfl, rfl, rfl⟩
      · simp at h
    all_goals
      replace h : ({ s with storage := subset.enum } : Service β) = s' :=
        congrArg Prod.fst h
    all_goals subst h
    all_goals exact ⟨rfl, rfl, rfl, rfl⟩
  · simp at h

/-- C10 (witness): the amended theorem applied to the fresh (never
indexed) service whose encoder always fails, showing the `indexed = false`
case of the claim. -/
theorem c10_witness :
    (svcFresh.train_from_dataf dfA none).1.storage = dfA.enum ∧
    (svcFresh.train_from_dataf dfA none).1.indexer = svcFresh.indexer ∧
    (svcFresh.train_from_dataf dfA none).1.indexed = svcFresh.indexed ∧
    (svcFresh.train_from_dataf dfA none).1.trained = svcFresh.trained :=
  c10_failed_train_state Nat svcFresh (svcFresh.train_from_dataf dfA none).1 dfA dfA none
    (.runtimeError "boom") rfl rfl

/-- C5: on a trained and indexed service with `k ≤ len(storage)`, if the
indexer returns `k` positions that are valid storage keys (looking up to
`items`) together with `k` distances, then `query(k, "list", vector)`
returns exactly `k` results in the indexer's order — result `i` being
the pair of `storage[position_i]` and `distance_i` (the zip of the
looked-up items with the distances, not re-sorted). -/
theorem c5_query_list_shape (β : Type) (s : Service β) (k : Nat) (v : β)
    (kwargs : Rec) (idx : List Nat) (dist : List Rat) (items : List Rec)
    (htr : s.trained = true) (hix : s.indexed = true) (hk : k ≤ s.storage.length)
    (hq : s.indexer.query (some v) k = (idx, dist))
    (hitems : idx.map (lookupStorage s.storage) = items.map some)
    (hd : dist.length = k) (hi : idx.length = k) :
    s.query k "list" (some v) kwargs = .ok (some (.list (items.zip dist))) ∧
    (items.zip dist).length = k := by
  have hil : items.length = idx.length := by
    have hmap := congrArg List.length hitems
    simpa using hmap.symm
  constructor
  · simp only [Service.query, htr, hix]
    rw [if_neg (by simp), if_neg (by omega), if_neg (by simp), hq]
    simp [buildResults_ok s.storage idx items dist hitems (by omega)]
  · rw [List.length_zip, hil, hi, hd, Nat.min_self]

/-- C5 (witness): the theorem applied to the concrete trained two-row
service with `k = 1` and a precomputed vector. -/
theorem c5_witness :
    svcTrained.query 1 "list" (some 3) [] =
      .ok (some (.list ([[("text", (0 : Rat))]].zip [(0 : Rat)]))) ∧
    ([[("text", (0 : Rat))]].zip [(0 : Rat)]).length = 1 :=
  c5_query_list_shape Nat svcTrained 1 3 [] [0] [(0 : Rat)] [[("text", (0 : Rat))]]
    rfl rfl (by decide) rfl (by decide) rfl rfl

/-- C9 (counterexample): the claim asserts that an `out` value other than
`"list"` and `"dataframe"` makes `query` fail explicitly.  The code
contradicts this: both `if` branches are skipped and the function falls
off the end, silently returning `None` (no exception). -/
theorem c9_counterexample :
    svcTrained.query 1 "json" (some 3) [] = .ok none ∧
    isErrorResult (svcTrained.query 1 "json" (some 3) []) = false :=
  ⟨rfl, rfl⟩

/-- C9 (amended): on a trained and indexed service with valid `k` and
resolvable results, any `out` other than `"list"` and `"dataframe"`
makes `query` silently return `None` (Python's implicit return), not
raise an error. -/
theorem c9_unknown_out_returns_none (β : Type) (s : Service β) (k : Nat) (v : β)
    (kwargs : Rec) (out : String) (idx : List Nat) (dist : List Rat) (items : List Rec)
    (htr : s.trained = true) (hix : s.indexed = true) (hk : k ≤ s.storage.length)
    (hq : s.indexer.query (some v) k = (idx, dist))
    (hitems : idx.map (lookupStorage s.storage) = items.map some)
    (hlen : idx.length = dist.length)
    (hout1 : out ≠ "list") (hout2 : out ≠ "dataframe") :
    s.query k out (some v) kwargs = .ok none := by
  simp only [Service.query, htr, hix]
  rw [if_neg (by simp), if_neg (by omega), if_neg (by simp), hq]
  simp only [buildResults_ok s.storage idx items dist hitems hlen]
  rw [if_neg hout1, if_neg hout2]

/-- C9 (witness): the amended theorem applied to the concrete trained
service with `out = "json"`. -/
theorem c9_witness :
    svcTrained.query 1 "json" (some 7) [] = .ok none :=
  c9_unknown_out_returns_none Nat svcTrained 1 7 [] "json" [0] [(0 : Rat)]
    [[("text", (0 : Rat))]] rfl rfl (by decide) rfl rfl rfl (by decide) (by decide)

/-- C6: for every trained service, `save` succeeds, writing `storage`
as a JSON object keyed by the stringified integer position, and `load`
on the saved directory converts the string keys back so that the
reloaded service's storage equals the original (round-trip identity on
storage). -/
theorem c6_storage_roundtrip (β : Type) (s : Service β) (fs : FS β) (path : String)
    (htr : s.trained = true) :
    (s.save fs path).2 = none ∧
    (lookupDir (s.save fs path).1 path).map Dir.storageJson =
      some (some (s.storage.map (fun p => (natKey p.1, p.2)))) ∧
    (Service.load (s.save fs path).1 path).1.map Service.storage = .ok s.storage := by
  have hsave : s.save fs path =
      (setDir (mkdir fs path) path
        { storageJson := some (s.storage.map (fun p => (natKey p.1, p.2)))
          metadataJson := some serviceVersion
          encoderFile := some s.encoder
          indexerFile := some s.indexer }, none) := by
    simp [Service.save, htr]
  refine ⟨by rw [hsave], ?_, ?_⟩
  · rw [hsave]
    simp [lookupDir_setDir]
  · rw [hsave]
    simp only [Service.load, lookupDir_setDir]
    rw [if_neg (by simp)]
    simp only [parseStorage_roundtrip]
    cases hst : s.storage with
    | nil => rfl
    | cons a l => rfl

/-- C6 (witness): the theorem applied to the concrete trained two-row
service saved to `"model"` on the empty filesystem. -/
theorem c6_witness :
    (svcTrained.save emptyFS "model").2 = none ∧
    (lookupDir (svcTrained.save emptyFS "model").1 "model").map Dir.storageJson =
      some (some (svcTrained.storage.map (fun p => (natKey p.1, p.2)))) ∧
    (Service.load (svcTrained.save emptyFS "model").1 "model").1.map Service.storage =
      .ok svcTrained.storage :=
  c6_storage_roundtrip Nat svcTrained emptyFS "model" rfl

/-- C8: `load` fails with the "not found" error
(`FileNotFoundError(f"{path} does not exist")`) exactly when the
directory does not exist; and on an existing directory whose metadata
version tag differs from the running version, `load` fails with the
"incompatible version" error having read only the metadata file —
storage is not read and neither blob is deserialized. -/
theorem c8_load_errors (β : Type) (fs : FS β) (path : String) :
    ((Service.load fs path).1 =
        .error (.fileNotFoundError (path ++ " does not exist")) ↔
      lookupDir fs path = none) ∧
    (∀ (d : Dir β) (ver : String), lookupDir fs path = some d →
      d.metadataJson = some ver → ver ≠ serviceVersion →
      Service.load fs path =
        (.error (.runtimeError ("Version mismatch. Expected " ++ serviceVersion ++ ", got " ++ ver)),
          [.metadataFile])) := by
  constructor
  · constructor
    · intro h
      cases hdir : lookupDir fs path with
      | none => rfl
      | some d =>
        exfalso
        simp only [Service.load, hdir] at h
        cases hmeta : d.metadataJson
        · simp only [hmeta, Except.error.injEq, PyErr.fileNotFoundError.injEq] at h
          exact strAppend_ne_of_ne path _ _ (by decide) h
        · rename_i ver
          simp only [hmeta] at h
          by_cases hver : ver ≠ serviceVersion
          · rw [if_pos hver] at h
            simp at h
          · rw [if_neg hver] at h
            cases hsj : d.storageJson
            · simp only [hsj, Except.error.injEq, PyErr.fileNotFoundError.injEq] at h
              exact strAppend_ne_of_ne path _ _ (by decide) h
            · rename_i sj
              simp only [hsj] at h
              cases hps : parseStorage sj
              · rename_i e
                obtain ⟨m, rfl⟩ := parseStorage_error_shape sj e hps
                simp [hps] at h
              · rename_i st
                simp only [hps] at h
                cases henc : d.encoderFile
                · simp only [henc, Except.error.injEq, PyErr.fileNotFoundError.injEq] at h
                  exact strAppend_ne_of_ne path _ _ (by decide) h
                · rename_i enc
                  simp only [henc] at h
                  cases hixf : d.indexerFile
                  · simp only [hixf, Except.error.injEq, PyErr.fileNotFoundError.injEq] at h
                    exact strAppend_ne_of_ne path _ _ (by decide) h
                  · rename_i ixr
                    simp [hixf] at h
    · intro h
      simp [Service.load, h]
  · intro d ver hdir hmeta hver
    simp only [Service.load, hdir, hmeta]
    rw [if_pos hver]

/-- C8 (witness): the theorem applied to a directory saved with a foreign
version tag `"9.9"` (version-mismatch part) and to the empty filesystem
(not-found part). -/
theorem c8_witness :
    Service.load fsBadVer "p" =
      (.error (.runtimeError ("Version mismatch. Expected " ++ serviceVersion ++ ", got " ++ "9.9")),
        [.metadataFile]) ∧
    (Service.load (emptyFS : FS Nat) "q").1 =
      .error (.fileNotFoundError ("q" ++ " does not exist")) :=
  ⟨(c8_load_errors Nat fsBadVer "p").2 dirBadVer "9.9" rfl rfl (by decide),
   ((c8_load_errors Nat emptyFS "q").1).mpr rfl⟩

end Simsity
